import Mathlib

/-!
# Verification of the Vadodara Historical Report polling orchestrator

Shallow embedding of the repository's Python sources:
* `multi_read_write.py` — the concurrent multi-device polling orchestrator
  (device registry resolver, tag catalog consumer, reachability gating,
  bounded-retry protocol read adapters, per-device poll worker, cycle
  orchestrator with dual persistence and daily-restart / log-retention
  machinery);
* `debug_muli_read.py` — the one-shot diagnostic reader with its own
  device-registry resolver variant;
* `insert-sql.py` — the one-shot migration script (not needed by the claims).

Python strings are modelled as `List Char` (`PyStr`); Python `str.replace`
with an empty replacement is modelled per pattern by a structural scanner
that mirrors CPython's left-to-right, non-overlapping semantics.  External
effects (environment variables, ping, the two wire protocols, ODBC, the
filesystem) are modelled as explicit oracle parameters.
-/

set_option linter.unusedVariables false

/-- Python strings, modelled as lists of characters. -/
abbrev PyStr := List Char

/-- Coerce a Lean string literal to the `PyStr` model. -/
def pys (s : String) : PyStr := s.data

/-- Python `str.isspace` characters relevant to `str.strip()` (ASCII part). -/
def isPyWs (c : Char) : Bool :=
  c = ' ' || c = '\t' || c = '\n' || c = '\x0d' || c = '\x0b' || c = '\x0c'

/-- Python `str.strip()`: drop leading and trailing whitespace. -/
def pyStrip (l : PyStr) : PyStr :=
  ((l.dropWhile isPyWs).reverse.dropWhile isPyWs).reverse

/-- Python `str.upper()` (ASCII). -/
def pyUpper (l : PyStr) : PyStr := l.map Char.toUpper

/-- Python `"…".replace("::", "")`: remove every occurrence of `::`,
scanning left to right without overlap (source line 81 of
`multi_read_write.py`, line 21 of `debug_muli_read.py`). -/
def removeCC : PyStr → PyStr
  | [] => []
  | [c] => [c]
  | a :: b :: rest => if a = ':' ∧ b = ':' then removeCC rest else a :: removeCC (b :: rest)

/-- Python `"…".replace(" ", "")`: remove every space. -/
def removeSp : PyStr → PyStr
  | [] => []
  | c :: rest => if c = ' ' then removeSp rest else c :: removeSp rest

/-- Does the string contain two adjacent colons (i.e. the substring `::`)? -/
def hasCC : PyStr → Bool
  | [] => false
  | [_] => false
  | a :: b :: rest => (a = ':' && b = ':') || hasCC (b :: rest)

/-- The final step of `normalize_plc_name`:
`if not name.startswith("["): name = f"[{name}]"`. -/
def wrapBr (l : PyStr) : PyStr :=
  if l.head? = some '[' then l else '[' :: (l ++ [']'])

/-- `normalize_plc_name` (`multi_read_write.py` lines 77–84; the identical
`normalize_excel_plc_name` of `debug_muli_read.py` lines 17–24):

```python
def normalize_plc_name(name):
    if not name:
        return None
    name = str(name).strip()
    name = name.replace("::", "").replace(" ", "")
    if not name.startswith("["):
        name = f"[{name}]"
    return name
```

The input is modelled as `Option PyStr`, `none` standing for Python `None`
and `some []` for the empty string (the two falsy inputs of type
`Optional[str]`). -/
def normalize_plc_name (x : Option PyStr) : Option PyStr :=
  match x with
  | none => none
  | some s =>
    if s = [] then none
    else some (wrapBr (removeSp (removeCC (pyStrip s))))

/-- The value `normalize_plc_name` returns on a non-empty string input. -/
def nzCore (s : PyStr) : PyStr := wrapBr (removeSp (removeCC (pyStrip s)))

/-- Python `"…".replace("PLC_", "")`: remove every occurrence of `PLC_`,
left to right without overlap. -/
def removePLCpre : PyStr → PyStr
  | a :: b :: c :: d :: rest =>
    if a = 'P' ∧ b = 'L' ∧ c = 'C' ∧ d = '_' then removePLCpre rest
    else a :: removePLCpre (b :: c :: d :: rest)
  | l => l

/-- Python `"…".replace("_TYPE", "")`: remove every occurrence of `_TYPE`. -/
def removeTYPE : PyStr → PyStr
  | a :: b :: c :: d :: e :: rest =>
    if a = '_' ∧ b = 'T' ∧ c = 'Y' ∧ d = 'P' ∧ e = 'E' then removeTYPE rest
    else a :: removeTYPE (b :: c :: d :: e :: rest)
  | l => l

/-- Python `"…".replace("_PLC", "")`: remove every occurrence of `_PLC`
(used only by the debug resolver, `debug_muli_read.py` line 51). -/
def removeUPLC : PyStr → PyStr
  | a :: b :: c :: d :: rest =>
    if a = '_' ∧ b = 'P' ∧ c = 'L' ∧ d = 'C' then removeUPLC rest
    else a :: removeUPLC (b :: c :: d :: rest)
  | l => l

/-- `os.getenv`, over the modelled environment (an association list in
iteration order; POSIX environment lookup is case-sensitive). -/
def getenv (env : List (PyStr × PyStr)) (k : PyStr) : Option PyStr :=
  env.lookup k

/-- Device configuration value stored by both resolvers:
`{"type": plc_type, "ip": ip_val.strip()}`. -/
structure PlcCfg where
  type : PyStr
  ip : PyStr
deriving DecidableEq, Repr

/-- Python `dict` assignment `d[k] = v`: an existing key keeps its position
and gets the new value; a new key is appended. -/
def dinsert {κ α : Type} [DecidableEq κ] (k : κ) (v : α) :
    List (κ × α) → List (κ × α)
  | [] => [(k, v)]
  | (k', v') :: rest =>
    if k' = k then (k, v) :: rest else (k', v') :: dinsert k v rest

namespace MultiReadWrite

/-- One iteration of the `for key, value in os.environ.items()` loop of
`load_plc_config_from_env` (`multi_read_write.py` lines 126–143).  Note the
key type is `Option PyStr` because `normalize_plc_name` returns `None` when
the raw name is empty and Python would then use `None` as the dict key. -/
def resolver_step (env : List (PyStr × PyStr))
    (plcs : List (Option PyStr × PlcCfg)) (kv : PyStr × PyStr) :
    List (Option PyStr × PlcCfg) :=
  let key_u := pyUpper kv.1
  if (pys "PLC_").isPrefixOf key_u && (pys "_TYPE").isSuffixOf key_u then
    let raw_name := removeTYPE (removePLCpre key_u)
    let plc_type := pyUpper (pyStrip kv.2)
    let normalized_name := normalize_plc_name (some raw_name)
    let ip_key := pys "PLC_" ++ raw_name ++ pys "_IP"
    match getenv env ip_key with
    | none => plcs
    | some ip_val =>
      if ip_val = [] then plcs
      else dinsert normalized_name ⟨plc_type, pyStrip ip_val⟩ plcs
  else plcs

/-- `load_plc_config_from_env` (`multi_read_write.py` lines 115–149): scan
the environment for `PLC_*_TYPE` keys, look up the sibling `PLC_*_IP` key
(missing or empty IP skips the device with a warning), and build the device
map keyed by `normalize_plc_name` of the raw name.  There is **no**
type-dependent branching: MICROLOGIX and all other type strings take the
identical path. -/
def load_plc_config_from_env (env : List (PyStr × PyStr)) :
    List (Option PyStr × PlcCfg) :=
  env.foldl (resolver_step env) []

end MultiReadWrite

namespace DebugMultiRead

/-- One iteration of the environment-scanning loop of the debug script's
`load_plc_config_from_env` (`debug_muli_read.py` lines 30–60). -/
def resolver_step (env : List (PyStr × PyStr))
    (plcs : List (PyStr × PlcCfg)) (kv : PyStr × PyStr) :
    List (PyStr × PlcCfg) :=
  let key_up := pyUpper kv.1
  if (pys "PLC_").isPrefixOf key_up && (pys "_TYPE").isSuffixOf key_up then
    let base := pyStrip (removeTYPE (removePLCpre key_up))
    let plc_type := pyUpper (pyStrip kv.2)
    if plc_type = pys "MICROLOGIX" then
      let excel_name := '[' :: (base ++ [']'])
      let ip_key := pys "PLC_" ++ base ++ pys "_IP"
      match getenv env ip_key with
      | none => plcs
      | some ip => if ip = [] then plcs
                   else dinsert excel_name ⟨plc_type, pyStrip ip⟩ plcs
    else
      let clean := removeUPLC base
      let excel_name := '[' :: (clean ++ [']'])
      let ip_key := pys "PLC_" ++ clean ++ pys "_IP"
      match getenv env ip_key with
      | none => plcs
      | some ip => if ip = [] then plcs
                   else dinsert excel_name ⟨plc_type, pyStrip ip⟩ plcs
  else plcs

/-- The debug script's `load_plc_config_from_env` (`debug_muli_read.py`
lines 27–66): same environment scan, but a literal MICROLOGIX type keeps
the full base name while every other type removes each occurrence of the
substring `_PLC` from it; the bracket wrap is unconditional. -/
def load_plc_config_from_env (env : List (PyStr × PyStr)) :
    List (PyStr × PlcCfg) :=
  env.foldl (resolver_step env) []

end DebugMultiRead

/-- A Python scalar tag value as it appears in this program (pylogix /
pycomm3 deliver numbers, booleans or strings). -/
inductive PyVal where
  | vbool (b : Bool)
  | vint (n : Int)
  | vstr (s : String)
deriving DecidableEq, Repr

/-- One catalog row as built by `load_excel_tags` (`multi_read_write.py`
lines 176–182): spreadsheet source row, tag name, numeric index, type code
and data-type code. -/
structure TagInfo where
  row : Nat
  tag_name : String
  tag_index : Int
  tag_type : Int
  tag_dtype : Int
deriving DecidableEq, Repr

/-- A per-tag result as built by the two read adapters (before the worker
stamps the device name onto it). -/
structure RawResult where
  value : Option PyVal
  status : String
  tag : TagInfo
deriving DecidableEq, Repr

/-- A per-tag result after `plc_worker` adds `r["plc"] = plc_name`. -/
structure ReadResult where
  plc : String
  value : Option PyVal
  status : String
  tag : TagInfo
deriving DecidableEq, Repr

/-- One `pycomm3.SLCDriver.read` response item (`r.value`, `r.error`); a
falsy `error` (Python `None`) means success. -/
structure SlcResp where
  value : Option PyVal
  error : Option String
deriving DecidableEq, Repr

/-- What one `with SLCDriver(ip) as plc: plc.read(*addrs)` attempt does:
either the whole attempt raises a transport fault, or it yields a response
list. -/
inductive MicroAttempt where
  | fault (msg : String)
  | ok (resps : List SlcResp)

/-- One `pylogix.PLC.Read` response item (`r.Value`, `r.Status`). -/
structure PylogixResp where
  Value : Option PyVal
  Status : String
deriving DecidableEq, Repr

/-- One `pylogix` read attempt: transport fault or response list. -/
inductive LogixAttempt where
  | fault (msg : String)
  | ok (resps : List PylogixResp)

/-- The retry loop of `read_micro_logix` (`multi_read_write.py` lines
204–225), with the wire protocol as an oracle indexed by attempt number.
First argument of the recursion: attempts remaining; second: attempts
already made.  A successful attempt zips the responses positionally with
the tag list and returns; a fault is logged, slept over and retried; after
the last failed retry one `NO RESPONSE` placeholder per tag is returned.
The caught exception never escapes: the function is total. -/
def read_micro_logix_go (oracle : Nat → MicroAttempt) (tag_list : List TagInfo) :
    Nat → Nat → List RawResult × Nat
  | 0, used => (tag_list.map (fun t => ⟨none, "NO RESPONSE", t⟩), used)
  | k + 1, used =>
    match oracle used with
    | .ok resps =>
      (List.zipWith
        (fun r t => RawResult.mk r.value
          (match r.error with | none => "OK" | some e => e) t)
        resps tag_list,
       used + 1)
    | .fault _ => read_micro_logix_go oracle tag_list k (used + 1)

/-- `read_micro_logix(ip, tag_list, retries=3)`.  The pair's second
component counts the protocol attempts actually performed. -/
def read_micro_logix (oracle : Nat → MicroAttempt) (tag_list : List TagInfo)
    (retries : Nat := 3) : List RawResult × Nat :=
  read_micro_logix_go oracle tag_list retries 0

/-- The retry loop of `read_logix` (`multi_read_write.py` lines 229–252),
same shape as `read_micro_logix_go` with pylogix responses. -/
def read_logix_go (oracle : Nat → LogixAttempt) (tag_list : List TagInfo) :
    Nat → Nat → List RawResult × Nat
  | 0, used => (tag_list.map (fun t => ⟨none, "NO RESPONSE", t⟩), used)
  | k + 1, used =>
    match oracle used with
    | .ok resps =>
      (List.zipWith (fun r t => RawResult.mk r.Value r.Status t) resps tag_list,
       used + 1)
    | .fault _ => read_logix_go oracle tag_list k (used + 1)

/-- `read_logix(ip, tag_list, is_micro800, retries=3)`.  `is_micro800`
only configures the driver (`comm.Micro800`) and does not change the data
path, so it is accepted and ignored by the model. -/
def read_logix (oracle : Nat → LogixAttempt) (tag_list : List TagInfo)
    (is_micro800 : Bool) (retries : Nat := 3) : List RawResult × Nat :=
  read_logix_go oracle tag_list retries 0

/-- Per-device oracles for one cycle: the `ping` result (the `ping`
function of `multi_read_write.py` lines 190–200 returns a plain boolean and
converts its own exceptions to `False`), and the outcome of each numbered
read attempt for either protocol family. -/
structure WireEnv where
  ping : String → Bool
  micro : Nat → MicroAttempt
  logix : Nat → LogixAttempt

/-- `r["plc"] = plc_name` (`multi_read_write.py` line 277). -/
def stamp (plc_name : String) (r : RawResult) : ReadResult :=
  ⟨plc_name, r.value, r.status, r.tag⟩

/-- The per-device configuration `{"type": …, "ip": …}` used by the main
loop (string names are opaque at this level). -/
structure PlcInfo where
  type : String
  ip : String
deriving DecidableEq, Repr

/-- `plc_worker` (`multi_read_write.py` lines 256–278): probe reachability;
if offline, append one OFFLINE placeholder per tag and perform no protocol
read; otherwise dispatch on the type string (`"MICROLOGIX"` exactly — the
env loader upper-cased it — selects the SLC adapter, everything else the
pylogix adapter with `is_micro800 = (type == "MICRO800")`) and stamp the
device name onto each result.  Second component: protocol read attempts
performed for this device in this cycle. -/
def plc_worker (W : WireEnv) (plc_name : String) (plc_info : PlcInfo)
    (tag_list : List TagInfo) : List ReadResult × Nat :=
  if W.ping plc_info.ip = false then
    (tag_list.map (fun t => ⟨plc_name, none, "OFFLINE", t⟩), 0)
  else
    let rr :=
      if plc_info.type = "MICROLOGIX" then
        read_micro_logix W.micro tag_list
      else
        read_logix W.logix tag_list (plc_info.type = "MICRO800")
    (rr.1.map (stamp plc_name), rr.2)

/-- The fan-out/join of `main_loop` (`multi_read_write.py` lines 326–341):
one worker per configured device that has catalog tags (devices without
tags are skipped with a log notice), all appending into the shared
`all_results` bucket.  Thread completion order is nondeterministic; this
sequential concatenation is one representative interleaving, and every
theorem below depends only on permutation-invariant facts (length) or
holds for an arbitrary input list (sortedness). -/
def collect (plcs : List (String × PlcInfo)) (tag_map : List (String × List TagInfo))
    (W : String → WireEnv) : List ReadResult :=
  match plcs with
  | [] => []
  | (name, info) :: rest =>
    match tag_map.lookup name with
    | none => collect rest tag_map W
    | some tl => (plc_worker (W name) name info tl).1 ++ collect rest tag_map W

/-- The sort key of `main_loop` line 344:
`sorted(all_results, key=lambda r: r["tag"]["tag_index"])`. -/
def tagIndexLe (a b : ReadResult) : Prop :=
  a.tag.tag_index ≤ b.tag.tag_index

instance : DecidableRel tagIndexLe := fun a b =>
  inferInstanceAs (Decidable (a.tag.tag_index ≤ b.tag.tag_index))

instance : IsTotal ReadResult tagIndexLe :=
  ⟨fun a b => Int.le_total a.tag.tag_index b.tag.tag_index⟩

instance : IsTrans ReadResult tagIndexLe :=
  ⟨fun _ _ _ hab hbc => le_trans hab hbc⟩

/-- `sorted(all_results, key=lambda r: r["tag"]["tag_index"])`: a stable
sort by ascending tag index (Python's `sorted` is a stable sort;
insertion sort realizes the same specification). -/
def sortResults (rs : List ReadResult) : List ReadResult :=
  rs.insertionSort tagIndexLe

/-- Catalog tag count of a device: length of its `tag_map` entry. -/
def tagCount (tag_map : List (String × List TagInfo)) (name : String) : Nat :=
  ((tag_map.lookup name).getD []).length

/-- Spreadsheet column numbers (`multi_read_write.py` lines 66–73). -/
def COL_TAGVALUE : Nat := 6

def COL_STATUS : Nat := 7

def COL_TIMESTAMP : Nat := 8

/-- The stringification applied before the relational insert
(`multi_read_write.py` lines 358–363): booleans become `"1"`/`"0"`, `None`
stays absent, anything else is `str(value)`. -/
def value_str : Option PyVal → Option String
  | none => none
  | some (.vbool b) => some (if b then "1" else "0")
  | some (.vint n) => some (toString n)
  | some (.vstr s) => some s

/-- The value written to the spreadsheet cell: booleans are coerced to the
integers 1/0, everything else is mirrored as-is. -/
def excel_value : Option PyVal → Option PyVal
  | some (.vbool b) => some (.vint (if b then 1 else 0))
  | v => v

/-- One row of the relational sink (`INSERT INTO … (ReadTime, PLC,
TagIndex, TagName, TagType, TagDataType, TagValue, Status)`). -/
structure SqlRow where
  readTime : String
  plc : String
  tagIndex : Int
  tagName : String
  tagType : Int
  tagDataType : Int
  tagValue : Option String
  status : String
deriving DecidableEq, Repr

/-- The row the cycle inserts for one ReadResult (`multi_read_write.py`
lines 370–380). -/
def toSqlRow (now : String) (r : ReadResult) : SqlRow :=
  ⟨now, r.plc, r.tag.tag_index, r.tag.tag_name, r.tag.tag_type,
   r.tag.tag_dtype, value_str r.value, r.status⟩

/-- Operations issued on the per-cycle ODBC connection: `cursor.execute`
of the insert statement, and `conn.commit()`. -/
inductive DbOp where
  | ins (r : SqlRow)
  | commit
deriving DecidableEq, Repr

/-- The relational store as seen through one connection: durable rows and
the connection's uncommitted pending rows.  Closing the connection without
committing discards `pending` (pyodbc connections have `autocommit=False`
by default, so inserts are durable only after `commit`). -/
structure DbState where
  committed : List SqlRow
  pending : List SqlRow
deriving DecidableEq, Repr

def apply_op (db : DbState) : DbOp → DbState
  | .ins r => ⟨db.committed, db.pending ++ [r]⟩
  | .commit => ⟨db.committed ++ db.pending, []⟩

def apply_ops (db : DbState) (ops : List DbOp) : DbState :=
  ops.foldl apply_op db

/-- The in-memory spreadsheet, as write-history (most recent first). -/
abbrev Sheet := List ((Nat × Nat) × Option PyVal)

/-- `ws.cell(row=…, column=…).value = v`. -/
def setCell (s : Sheet) (rc : Nat × Nat) (v : Option PyVal) : Sheet :=
  (rc, v) :: s

/-- The per-result body of the persistence loop (`multi_read_write.py`
lines 347–382): mutate the three spreadsheet cells for the tag's source
row, then `cursor.execute` the insert.  `insertOk i` tells whether the
`i`-th insert raises; a raising insert aborts the loop with the spreadsheet
mutations made so far kept in memory and no further operations issued.
Returns (mutated sheet, issued DB operations, outcome). -/
def write_rows (now : String) (insertOk : Nat → Bool) :
    List ReadResult → Nat → Sheet → Sheet × List DbOp × Except String Unit
  | [], _, sheet => (sheet, [], Except.ok ())
  | r :: rs, i, sheet =>
    let sheet' := setCell (setCell (setCell sheet
        (r.tag.row, COL_TAGVALUE) (excel_value r.value))
        (r.tag.row, COL_STATUS) (some (.vstr r.status)))
        (r.tag.row, COL_TIMESTAMP) (some (.vstr now))
    if insertOk i then
      let rest := write_rows now insertOk rs (i + 1) sheet'
      (rest.1, DbOp.ins (toSqlRow now r) :: rest.2.1, rest.2.2)
    else (sheet', [], Except.error "SQL insert failed")

/-- The cycle's relational-sink operation trace: the inserts issued by the
row loop, followed by the single `conn.commit()` (line 384) — issued only
if every insert succeeded; `commitOk` tells whether that commit raises. -/
def cycle_sql_ops (now : String) (insertOk : Nat → Bool) (commitOk : Bool)
    (results : List ReadResult) (sheet : Sheet) : List DbOp × Except String Unit :=
  let wr := write_rows now insertOk results 0 sheet
  match wr.2.2 with
  | Except.error e => (wr.2.1, Except.error e)
  | Except.ok _ =>
    if commitOk then (wr.2.1 ++ [DbOp.commit], Except.ok ())
    else (wr.2.1, Except.error "SQL commit failed")

/-- Per-cycle fault injection: the wire oracles, whether
`get_sql_connection()` succeeds, whether each numbered insert succeeds,
whether the commit succeeds, and the cycle's timestamp string. -/
structure CycleEnv where
  wire : String → WireEnv
  connectOk : Bool
  insertOk : Nat → Bool
  commitOk : Bool
  now : String

/-- State carried across cycles: the in-memory workbook sheet, the durable
relational rows, and the last successfully saved copy of the sheet file. -/
structure LoopState where
  sheet : Sheet
  db : List SqlRow
  savedSheet : Option Sheet
deriving DecidableEq, Repr

/-- One iteration of the `while True` body of `main_loop`
(`multi_read_write.py` lines 308–398), scan/persist portion: open the
per-cycle connection, fan out and join the workers, sort by tag index,
run the row loop, commit, save the workbook.  The daily-restart check and
the log purge are modelled separately (`restart_fires`, `purge_old_logs`);
they touch neither the sinks nor the result set.  There is **no**
`try/except` anywhere in this body: any SQL fault is returned as an error
that the caller does not catch.  The returned `LoopState` is the in-memory
state after the iteration (mutations are kept even on a fault; the durable
rows change only through a successful commit; the file copy of the sheet
is written only on full success, line 388). -/
def run_cycle (plcs : List (String × PlcInfo))
    (tag_map : List (String × List TagInfo)) (E : CycleEnv) (st : LoopState) :
    Except String Unit × LoopState :=
  if E.connectOk = false then (Except.error "SQL connect failed", st)
  else
    let results := sortResults (collect plcs tag_map E.wire)
    let wr := write_rows E.now E.insertOk results 0 st.sheet
    let so := cycle_sql_ops E.now E.insertOk E.commitOk results st.sheet
    match so.2 with
    | Except.error e => (Except.error e, ⟨wr.1, st.db, st.savedSheet⟩)
    | Except.ok _ =>
      (Except.ok (),
       ⟨wr.1, (apply_ops ⟨st.db, []⟩ so.1).committed, some wr.1⟩)

/-- `main_loop`'s `while True` over a finite prefix of cycle environments,
exactly as the source propagates control: a cycle that raises exits the
loop with that exception (there is no handler in `main_loop`, and the
`if __name__ == "__main__": main_loop()` entry point — lines 401–402 —
installs none either, so the exception terminates the process). -/
def main_loop_run (plcs : List (String × PlcInfo))
    (tag_map : List (String × List TagInfo)) :
    List CycleEnv → LoopState → Except String LoopState
  | [], st => Except.ok st
  | E :: Es, st =>
    match run_cycle plcs tag_map E st with
    | (Except.ok _, st') => main_loop_run plcs tag_map Es st'
    | (Except.error e, _) => Except.error e

/-- Wall-clock time in minutes since an arbitrary epoch; one log-partition
date parses to the midnight of its day. -/
def MIN_PER_DAY : Int := 1440

/-- `fname[len("plc_reader_"):-4]` — the date substring of a partition
name (`multi_read_write.py` line 39). -/
def log_date_str (fname : PyStr) : PyStr :=
  (fname.take (fname.length - 4)).drop 11

/-- The name filter of the purge loop (line 37):
`fname.startswith("plc_reader_") and fname.endswith(".log")`. -/
def is_log_name (fname : PyStr) : Bool :=
  (pys "plc_reader_").isPrefixOf fname && (pys ".log").isSuffixOf fname

structure PurgeOutcome where
  removed : List PyStr
  completed : Bool
deriving DecidableEq, Repr

/-- The `for fname in os.listdir(LOG_DIR)` loop of `purge_old_logs`
(lines 36–46).  `parseYmd` is the `datetime.strptime(date_str, "%Y%m%d")`
oracle (stdlib, external), returning the partition's midnight in minutes or
`none` on a `ValueError` — which the inner `try/except ValueError`
converts into `continue`.  `removeOk` tells whether `os.remove` succeeds;
a failing remove raises past the `for` loop into the **outer**
`try/except Exception` (lines 35, 47–49), which swallows it after printing
— so the sweep ends early (`completed = false`) but never raises. -/
def purge_go (parseYmd : PyStr → Option Int) (cutoff : Int)
    (removeOk : PyStr → Bool) : List PyStr → List PyStr → PurgeOutcome
  | [], acc => ⟨acc, true⟩
  | f :: rest, acc =>
    if is_log_name f = false then purge_go parseYmd cutoff removeOk rest acc
    else
      match parseYmd (log_date_str f) with
      | none => purge_go parseYmd cutoff removeOk rest acc
      | some d =>
        if d < cutoff then
          if removeOk f then purge_go parseYmd cutoff removeOk rest (acc ++ [f])
          else ⟨acc, false⟩
        else purge_go parseYmd cutoff removeOk rest acc

/-- `purge_old_logs(days_keep=7)` (lines 32–49):
`cutoff = datetime.now() - timedelta(days=days_keep)`, then the scan/delete
loop.  Total function: the sweep never raises past its own boundary. -/
def purge_old_logs (files : List PyStr) (parseYmd : PyStr → Option Int)
    (now : Int) (removeOk : PyStr → Bool) (days_keep : Int := 7) :
    PurgeOutcome :=
  purge_go parseYmd (now - days_keep * MIN_PER_DAY) removeOk files []

/-- A concrete `strptime("%Y%m%d")` table for the §8 scenario days
1, 3, 9, 10 (month `2025-01`). -/
def demoParseYmd (s : PyStr) : Option Int :=
  if s = pys "20250101" then some (1 * MIN_PER_DAY)
  else if s = pys "20250103" then some (3 * MIN_PER_DAY)
  else if s = pys "20250109" then some (9 * MIN_PER_DAY)
  else if s = pys "20250110" then some (10 * MIN_PER_DAY)
  else none

/-- "Today = day 10", checked at 02:00 of that day. -/
def demoPurgeNow : Int := 10 * MIN_PER_DAY + 120

/-- The four §8 scenario partitions. -/
def demoLogFiles : List PyStr :=
  [pys "plc_reader_20250101.log", pys "plc_reader_20250103.log",
   pys "plc_reader_20250109.log", pys "plc_reader_20250110.log"]

/-- An `os.remove` oracle that fails on the day-1 partition only. -/
def demoRemoveFail (f : PyStr) : Bool :=
  if f = pys "plc_reader_20250101.log" then false else true

/-- The wall clock as read at the top of a cycle (`datetime.now()`,
line 291): calendar date plus hour and minute. -/
structure Wallclock where
  date : Nat
  hour : Nat
  minute : Nat
deriving DecidableEq, Repr

/-- The daily-restart guard (`multi_read_write.py` lines 292–296):
`now.hour == 2 and now.minute == 0 and (last_restart_date is None or
last_restart_date != now.date())`. -/
def restart_due (now : Wallclock) (last : Option Nat) : Bool :=
  now.hour == 2 && now.minute == 0 &&
    (match last with
     | none => true
     | some d => d != now.date)

/-- The restart checks made by one process instance over a sequence of
top-of-cycle clock readings: when the guard fires, the code sets
`last_restart_date` and immediately replaces the process image with
`os.execv` (line 303), so no later check happens in this instance; when it
does not fire, `last_restart_date` is unchanged.  Returns the clock
readings at which a restart was triggered. -/
def restart_fires : List Wallclock → Option Nat → List Wallclock
  | [], _ => []
  | t :: ts, last =>
    if restart_due t last then [t] else restart_fires ts last

/-- Did the cycle's relational phase succeed (no insert raised and the
commit succeeded)? -/
def exOk : Except String Unit → Bool
  | Except.ok _ => true
  | Except.error _ => false

/-- Demo configuration for the persistence-fault scenario: one MICROLOGIX
device with one catalog tag, reachable, answering value 7 with no error. -/
def c2DemoPlcs : List (String × PlcInfo) := [("P", ⟨"MICROLOGIX", "10.0.0.9"⟩)]

def c2DemoTags : List (String × List TagInfo) := [("P", [⟨2, "N7:0", 10, 1, 1⟩])]

def c2DemoWire : String → WireEnv := fun _ =>
  ⟨fun _ => true, fun _ => MicroAttempt.ok [⟨some (.vint 7), none⟩],
   fun _ => LogixAttempt.fault "x"⟩

/-- A cycle whose reads succeed but whose `conn.commit()` raises. -/
def c2BadEnv : CycleEnv :=
  ⟨c2DemoWire, true, fun _ => true, false, "2026-10-12 10:00:00"⟩

/-- A subsequent, fully healthy cycle. -/
def c2GoodEnv : CycleEnv :=
  ⟨c2DemoWire, true, fun _ => true, true, "2026-10-12 10:00:05"⟩

def c2State0 : LoopState := ⟨[], [], none⟩

/-- A loop re-evaluating every few seconds around and after 02:00. -/
def c8DemoTimes : List Wallclock :=
  [⟨5, 1, 59⟩, ⟨5, 2, 0⟩, ⟨5, 2, 0⟩, ⟨5, 2, 1⟩, ⟨5, 2, 30⟩, ⟨5, 2, 59⟩]

theorem normalize_some_eq (s : PyStr) (hs : s ≠ []) :
    normalize_plc_name (some s) = some (nzCore s) := by
  simp [normalize_plc_name, nzCore, hs]

/-- `removeSp` is just a filter: no space survives and nothing else changes. -/
theorem removeSp_eq_filter (l : PyStr) : removeSp l = l.filter (· ≠ ' ') := by
  induction l with
  | nil => rfl
  | cons c rest ih =>
    by_cases hc : c = ' '
    · subst hc; simp [removeSp, ih]
    · simp [removeSp, hc, List.filter_cons, ih]

theorem space_not_mem_removeSp (l : PyStr) : ' ' ∉ removeSp l := by
  rw [removeSp_eq_filter]
  intro h
  have := List.of_mem_filter h
  simp at this

theorem removeSp_of_not_mem {l : PyStr} (h : ' ' ∉ l) : removeSp l = l := by
  rw [removeSp_eq_filter]
  apply List.filter_eq_self.mpr
  intro a ha
  simp only [ne_eq, decide_eq_true_eq]
  intro he
  exact h (he ▸ ha)

/-- If a string has no `::` substring then `replace("::", "")` is the
identity on it. -/
theorem removeCC_of_hasCC_false : ∀ {l : PyStr}, hasCC l = false → removeCC l = l
  | [], _ => rfl
  | [c], _ => rfl
  | a :: b :: rest, h => by
    have h' : ¬(a = ':' ∧ b = ':') ∧ hasCC (b :: rest) = false := by
      simpa [hasCC, Decidable.not_and_iff_or_not] using h
    rw [removeCC, if_neg h'.1, removeCC_of_hasCC_false h'.2]

theorem nzCore_head (s : PyStr) : (nzCore s).head? = some '[' := by
  unfold nzCore wrapBr
  split
  · assumption
  · rfl

theorem nzCore_no_space (s : PyStr) : ' ' ∉ nzCore s := by
  unfold nzCore wrapBr
  have hbase := space_not_mem_removeSp (removeCC (pyStrip s))
  split
  · exact hbase
  · intro hmem
    simp only [List.mem_cons, List.mem_append, List.mem_singleton] at hmem
    rcases hmem with h | h | h
    · exact absurd h (by decide)
    · exact hbase h
    · exact absurd h (by decide)

/-- Any string that starts with `[`, is strip-invariant, has no `::`
substring and no space is a fixed point of `normalize_plc_name`. -/
theorem normalize_plc_name_fixed {y : PyStr} (hh : y.head? = some '[')
    (hstrip : pyStrip y = y) (hcc : hasCC y = false) (hsp : ' ' ∉ y) :
    normalize_plc_name (some y) = some y := by
  have hne : y ≠ [] := by intro h; rw [h] at hh; simp at hh
  rw [normalize_some_eq _ hne]
  have : nzCore y = y := by
    unfold nzCore
    rw [hstrip, removeCC_of_hasCC_false hcc, removeSp_of_not_mem hsp]
    unfold wrapBr
    rw [if_pos hh]
  rw [this]

/-- **C10** (counterexample). The claim asserts `normalize_plc_name` is
idempotent and that its output on a non-empty string never contains `"::"`.
Both fail at the concrete input `": :"`: stripping removes nothing, there is
no `"::"` to remove, but removing the space juxtaposes the two colons, so the
result is `"[::]"` — which contains `"::"` — and a second application
collapses it to `"[]"`, so the function is not idempotent. -/
theorem c10_counterexample :
    normalize_plc_name (normalize_plc_name (some (pys ": :")))
        ≠ normalize_plc_name (some (pys ": :"))
    ∧ normalize_plc_name (some (pys ": :")) = some (pys "[::]")
    ∧ hasCC (pys "[::]") = true := by decide

/-- **C10** (amended). `normalize_plc_name` returns `None` for every falsy
input; for every non-empty string input the result contains no spaces and
starts with `"["`, but it may contain `"::"` (recreated when space removal
juxtaposes colons), and it is idempotent only on outputs that carry no
`"::"` substring and no leading/trailing whitespace — in general a second
application can differ (see `c10_counterexample`). -/
theorem c10_normalize_plc_name_amended (s : PyStr) (hs : s ≠ []) :
    normalize_plc_name (some s) = some (nzCore s)
    ∧ (nzCore s).head? = some '['
    ∧ ' ' ∉ nzCore s
    ∧ normalize_plc_name none = none
    ∧ normalize_plc_name (some []) = none
    ∧ (pyStrip (nzCore s) = nzCore s → hasCC (nzCore s) = false →
        normalize_plc_name (some (nzCore s)) = some (nzCore s)) := by
  refine ⟨normalize_some_eq s hs, nzCore_head s, nzCore_no_space s, rfl, rfl, ?_⟩
  intro hstrip hcc
  exact normalize_plc_name_fixed (nzCore_head s) hstrip hcc (nzCore_no_space s)

/-- **C10** (witness for the amended theorem at the concrete input `"AB"`). -/
theorem c10_witness :
    normalize_plc_name (some (pys "AB")) = some (nzCore (pys "AB"))
    ∧ (nzCore (pys "AB")).head? = some '['
    ∧ ' ' ∉ nzCore (pys "AB")
    ∧ normalize_plc_name none = none
    ∧ normalize_plc_name (some []) = none
    ∧ (pyStrip (nzCore (pys "AB")) = nzCore (pys "AB") →
        hasCC (nzCore (pys "AB")) = false →
        normalize_plc_name (some (nzCore (pys "AB"))) = some (nzCore (pys "AB"))) :=
  c10_normalize_plc_name_amended (pys "AB") (by decide)

/-- **C3** (counterexample). The claim says a MICROLOGIX type string
preserves the full normalized device name.  It does not: both resolvers
first strip every occurrence of `"PLC_"` and then `"_TYPE"` from the
upper-cased key, and for a raw name ending in `_PLC` the trailing
`_PLC_TYPE` contains a second `"PLC_"` occurrence, so the name is cut to
`FOO` even for MICROLOGIX.  Concretely, with
`PLC_FOO_PLC_TYPE=MICROLOGIX`, `PLC_FOO_IP=1.1.1.1` and
`PLC_FOO_PLC_IP=2.2.2.2` in the environment, the claim predicts the key
`[FOO_PLC]` with IP `2.2.2.2`; both resolvers actually register `[FOO]`
with IP `1.1.1.1`. -/
theorem c3_counterexample :
    MultiReadWrite.load_plc_config_from_env
      [(pys "PLC_FOO_PLC_TYPE", pys "MICROLOGIX"),
       (pys "PLC_FOO_IP", pys "1.1.1.1"),
       (pys "PLC_FOO_PLC_IP", pys "2.2.2.2")]
      = [(some (pys "[FOO]"), ⟨pys "MICROLOGIX", pys "1.1.1.1"⟩)]
    ∧ DebugMultiRead.load_plc_config_from_env
      [(pys "PLC_FOO_PLC_TYPE", pys "MICROLOGIX"),
       (pys "PLC_FOO_IP", pys "1.1.1.1"),
       (pys "PLC_FOO_PLC_IP", pys "2.2.2.2")]
      = [(pys "[FOO]", ⟨pys "MICROLOGIX", pys "1.1.1.1"⟩)] := by
  constructor <;> decide

/-- **C3** (amended).  What the resolvers actually do:
* the orchestrator's resolver has no type-dependent branching at all — for
  any type string `t` the key and IP lookup are identical (first conjunct);
* both resolvers cut a trailing `_PLC` out of the raw name for *every*
  type, because removing `"PLC_"` from `…_PLC_TYPE` already deletes it
  (fourth conjunct, for any type string; see also `c3_counterexample`);
* only the debug resolver branches on MICROLOGIX (case-insensitively, via
  `value.strip().upper()`), keeping the remaining base name intact (second
  conjunct), while for every other type it removes *every occurrence* of
  the substring `_PLC` — not merely a suffix — and looks the IP up under
  the cleaned name (third conjunct: interior `_PLC` in `A_PLCX` is also
  removed, giving `[AX]` and IP key `PLC_AX_IP`). -/
theorem c3_resolver_amended (t tm ip : PyStr) (hip : ip ≠ [])
    (htm : pyUpper (pyStrip tm) = pys "MICROLOGIX")
    (ht : pyUpper (pyStrip t) ≠ pys "MICROLOGIX") :
    MultiReadWrite.load_plc_config_from_env
        [(pys "PLC_A_PLCX_TYPE", t), (pys "PLC_A_PLCX_IP", ip)]
      = [(some (pys "[A_PLCX]"), ⟨pyUpper (pyStrip t), pyStrip ip⟩)]
    ∧ DebugMultiRead.load_plc_config_from_env
        [(pys "PLC_A_PLCX_TYPE", tm), (pys "PLC_A_PLCX_IP", ip)]
      = [(pys "[A_PLCX]", ⟨pys "MICROLOGIX", pyStrip ip⟩)]
    ∧ DebugMultiRead.load_plc_config_from_env
        [(pys "PLC_A_PLCX_TYPE", t), (pys "PLC_AX_IP", ip)]
      = [(pys "[AX]", ⟨pyUpper (pyStrip t), pyStrip ip⟩)]
    ∧ MultiReadWrite.load_plc_config_from_env
        [(pys "PLC_FOO_PLC_TYPE", t), (pys "PLC_FOO_IP", ip)]
      = [(some (pys "[FOO]"), ⟨pyUpper (pyStrip t), pyStrip ip⟩)] := by
  refine ⟨?_, ?_, ?_, ?_⟩
  · have h : MultiReadWrite.load_plc_config_from_env
        [(pys "PLC_A_PLCX_TYPE", t), (pys "PLC_A_PLCX_IP", ip)]
      = if ip = [] then []
        else [(some (pys "[A_PLCX]"), ⟨pyUpper (pyStrip t), pyStrip ip⟩)] := rfl
    rw [h, if_neg hip]
  · have h : DebugMultiRead.load_plc_config_from_env
        [(pys "PLC_A_PLCX_TYPE", tm), (pys "PLC_A_PLCX_IP", ip)]
      = if pyUpper (pyStrip tm) = pys "MICROLOGIX" then
          (if ip = [] then []
           else [(pys "[A_PLCX]", ⟨pyUpper (pyStrip tm), pyStrip ip⟩)])
        else [] := rfl
    rw [h, if_pos htm, if_neg hip, htm]
  · have h : DebugMultiRead.load_plc_config_from_env
        [(pys "PLC_A_PLCX_TYPE", t), (pys "PLC_AX_IP", ip)]
      = if pyUpper (pyStrip t) = pys "MICROLOGIX" then []
        else (if ip = [] then []
              else [(pys "[AX]", ⟨pyUpper (pyStrip t), pyStrip ip⟩)]) := rfl
    rw [h, if_neg ht, if_neg hip]
  · have h : MultiReadWrite.load_plc_config_from_env
        [(pys "PLC_FOO_PLC_TYPE", t), (pys "PLC_FOO_IP", ip)]
      = if ip = [] then []
        else [(some (pys "[FOO]"), ⟨pyUpper (pyStrip t), pyStrip ip⟩)] := rfl
    rw [h, if_neg hip]

/-- **C3** (witness): the amended theorem at the concrete type strings
`"COMPACT"` and `" micrologix "` and IP `"9.9.9.9"`. -/
theorem c3_witness :
    MultiReadWrite.load_plc_config_from_env
        [(pys "PLC_A_PLCX_TYPE", pys "COMPACT"), (pys "PLC_A_PLCX_IP", pys "9.9.9.9")]
      = [(some (pys "[A_PLCX]"),
          ⟨pyUpper (pyStrip (pys "COMPACT")), pyStrip (pys "9.9.9.9")⟩)]
    ∧ DebugMultiRead.load_plc_config_from_env
        [(pys "PLC_A_PLCX_TYPE", pys " micrologix "), (pys "PLC_A_PLCX_IP", pys "9.9.9.9")]
      = [(pys "[A_PLCX]", ⟨pys "MICROLOGIX", pyStrip (pys "9.9.9.9")⟩)]
    ∧ DebugMultiRead.load_plc_config_from_env
        [(pys "PLC_A_PLCX_TYPE", pys "COMPACT"), (pys "PLC_AX_IP", pys "9.9.9.9")]
      = [(pys "[AX]", ⟨pyUpper (pyStrip (pys "COMPACT")), pyStrip (pys "9.9.9.9")⟩)]
    ∧ MultiReadWrite.load_plc_config_from_env
        [(pys "PLC_FOO_PLC_TYPE", pys "COMPACT"), (pys "PLC_FOO_IP", pys "9.9.9.9")]
      = [(some (pys "[FOO]"),
          ⟨pyUpper (pyStrip (pys "COMPACT")), pyStrip (pys "9.9.9.9")⟩)] :=
  c3_resolver_amended (pys "COMPACT") (pys " micrologix ") (pys "9.9.9.9")
    (by decide) (by decide) (by decide)

theorem read_micro_logix_go_length (oracle : Nat → MicroAttempt)
    (tl : List TagInfo)
    (h : ∀ i r, oracle i = MicroAttempt.ok r → r.length = tl.length) :
    ∀ k used, (read_micro_logix_go oracle tl k used).1.length = tl.length := by
  intro k
  induction k with
  | zero => intro used; simp [read_micro_logix_go]
  | succ k ih =>
    intro used
    unfold read_micro_logix_go
    cases ho : oracle used with
    | ok resps => simp [List.length_zipWith, h used resps ho]
    | fault m => exact ih (used + 1)

theorem read_logix_go_length (oracle : Nat → LogixAttempt)
    (tl : List TagInfo)
    (h : ∀ i r, oracle i = LogixAttempt.ok r → r.length = tl.length) :
    ∀ k used, (read_logix_go oracle tl k used).1.length = tl.length := by
  intro k
  induction k with
  | zero => intro used; simp [read_logix_go]
  | succ k ih =>
    intro used
    unfold read_logix_go
    cases ho : oracle used with
    | ok resps => simp [List.length_zipWith, h used resps ho]
    | fault m => exact ih (used + 1)

/-- Whatever the failure mix, a worker emits exactly one result per catalog
tag of its device, provided every *successful* protocol attempt answers one
response per requested tag (the position-preserving adapter contract;
`zip` would silently truncate if a driver violated it). -/
theorem plc_worker_length (W : WireEnv) (name : String) (info : PlcInfo)
    (tl : List TagInfo)
    (hm : ∀ i r, W.micro i = MicroAttempt.ok r → r.length = tl.length)
    (hl : ∀ i r, W.logix i = LogixAttempt.ok r → r.length = tl.length) :
    (plc_worker W name info tl).1.length = tl.length := by
  unfold plc_worker
  by_cases hping : W.ping info.ip = false
  · simp [hping]
  · simp only [hping, if_false]
    by_cases htype : info.type = "MICROLOGIX"
    · simp [htype, read_micro_logix, read_micro_logix_go_length W.micro tl hm]
    · simp [htype, read_logix, read_logix_go_length W.logix tl hl]

/-- **C1** (confirmed).  In every cycle, the number of merged-and-sorted
ReadResults equals the sum of catalog tag counts over the configured
devices (devices absent from the catalog contribute zero and are skipped),
for any mix of offline devices, devices whose every retry faults, and
successful devices — under the adapter contract that a successful attempt
returns one response per requested tag.  No tag is dropped: OFFLINE and
NO RESPONSE placeholders are synthesized per tag. -/
theorem c1_result_count (plcs : List (String × PlcInfo))
    (tag_map : List (String × List TagInfo)) (W : String → WireEnv)
    (h : ∀ p ∈ plcs, ∀ tl, tag_map.lookup p.1 = some tl →
      (∀ i r, (W p.1).micro i = MicroAttempt.ok r → r.length = tl.length) ∧
      (∀ i r, (W p.1).logix i = LogixAttempt.ok r → r.length = tl.length)) :
    (sortResults (collect plcs tag_map W)).length
      = (plcs.map (fun p => tagCount tag_map p.1)).sum := by
  unfold sortResults
  rw [List.length_insertionSort]
  induction plcs with
  | nil => simp [collect]
  | cons p rest ih =>
    obtain ⟨name, info⟩ := p
    have hp := h ⟨name, info⟩ (by simp)
    have hrest : ∀ q ∈ rest, ∀ tl, tag_map.lookup q.1 = some tl →
        (∀ i r, (W q.1).micro i = MicroAttempt.ok r → r.length = tl.length) ∧
        (∀ i r, (W q.1).logix i = LogixAttempt.ok r → r.length = tl.length) :=
      fun q hq => h q (List.mem_cons_of_mem _ hq)
    unfold collect
    cases hlook : tag_map.lookup name with
    | none => simpa [tagCount, hlook] using ih hrest
    | some tl =>
      have hw := plc_worker_length (W name) name info tl
        (hp tl hlook).1 (hp tl hlook).2
      simp [tagCount, hlook, hw, ih hrest]

/-- **C1** (witness): one offline device with two tags, one all-faults
device with one tag, one absent-from-catalog device: 2 + 1 + 0 results. -/
theorem c1_witness :
    (sortResults (collect
        [("A", ⟨"MICROLOGIX", "10.0.0.1"⟩), ("B", ⟨"COMPACT", "10.0.0.2"⟩),
         ("C", ⟨"MICRO800", "10.0.0.3"⟩)]
        [("A", [⟨2, "N7:0", 10, 1, 1⟩, ⟨3, "N7:1", 11, 1, 1⟩]),
         ("B", [⟨4, "Tank.Level", 5, 1, 1⟩])]
        (fun name => ⟨fun _ => name == "B", fun _ => MicroAttempt.fault "t/o",
          fun _ => LogixAttempt.fault "t/o"⟩))).length
      = ([("A", (⟨"MICROLOGIX", "10.0.0.1"⟩ : PlcInfo)),
          ("B", ⟨"COMPACT", "10.0.0.2"⟩),
          ("C", ⟨"MICRO800", "10.0.0.3"⟩)].map
            (fun p => tagCount
              [("A", [⟨2, "N7:0", 10, 1, 1⟩, ⟨3, "N7:1", 11, 1, 1⟩]),
               ("B", [⟨4, "Tank.Level", 5, 1, 1⟩])] p.1)).sum :=
  c1_result_count _ _ _
    (by
      intro p hp tl hlook
      exact ⟨(fun i r hir => nomatch hir), (fun i r hir => nomatch hir)⟩)

theorem read_micro_logix_go_all_fault (oracle : Nat → MicroAttempt)
    (tl : List TagInfo) :
    ∀ k used, (∀ i, used ≤ i → i < used + k → ∃ m, oracle i = MicroAttempt.fault m) →
    read_micro_logix_go oracle tl k used
      = (tl.map (fun t => ⟨none, "NO RESPONSE", t⟩), used + k) := by
  intro k
  induction k with
  | zero => intro used h; simp [read_micro_logix_go]
  | succ k ih =>
    intro used h
    obtain ⟨m, hm⟩ := h used (Nat.le_refl _) (by omega)
    unfold read_micro_logix_go
    rw [hm, ih (used + 1) (fun i h1 h2 => h i (by omega) (by omega))]
    have harith : used + 1 + k = used + (k + 1) := by omega
    rw [harith]

theorem read_logix_go_all_fault (oracle : Nat → LogixAttempt)
    (tl : List TagInfo) :
    ∀ k used, (∀ i, used ≤ i → i < used + k → ∃ m, oracle i = LogixAttempt.fault m) →
    read_logix_go oracle tl k used
      = (tl.map (fun t => ⟨none, "NO RESPONSE", t⟩), used + k) := by
  intro k
  induction k with
  | zero => intro used h; simp [read_logix_go]
  | succ k ih =>
    intro used h
    obtain ⟨m, hm⟩ := h used (Nat.le_refl _) (by omega)
    unfold read_logix_go
    rw [hm, ih (used + 1) (fun i h1 h2 => h i (by omega) (by omega))]
    have harith : used + 1 + k = used + (k + 1) := by omega
    rw [harith]

/-- **C4** (confirmed).  A device that passes the reachability probe but
whose protocol read raises a transport fault on every attempt produces,
after exactly the configured retry count (the default 3, which is what
`plc_worker` passes), one ReadResult with status `"NO RESPONSE"` and absent
value for each of its tags — for either protocol family.  The fault never
propagates past the worker: `plc_worker` is a total function whose failure
mode *is* this return value. -/
theorem c4_no_response (W : WireEnv) (name : String) (info : PlcInfo)
    (tl : List TagInfo)
    (hping : W.ping info.ip = true)
    (hm : ∀ i, i < 3 → ∃ m, W.micro i = MicroAttempt.fault m)
    (hl : ∀ i, i < 3 → ∃ m, W.logix i = LogixAttempt.fault m) :
    plc_worker W name info tl
      = (tl.map (fun t => ⟨name, none, "NO RESPONSE", t⟩), 3) := by
  unfold plc_worker
  rw [hping]
  simp only [Bool.true_eq_false, if_false]
  by_cases htype : info.type = "MICROLOGIX"
  · rw [if_pos htype]
    unfold read_micro_logix
    rw [read_micro_logix_go_all_fault W.micro tl 3 0
      (fun i h0 h3 => hm i (by omega))]
    simp [stamp]
  · rw [if_neg htype]
    unfold read_logix
    rw [read_logix_go_all_fault W.logix tl 3 0
      (fun i h0 h3 => hl i (by omega))]
    simp [stamp]

/-- **C4** (witness): a two-tag device of each family against an
all-faulting wire. -/
theorem c4_witness :
    plc_worker
        ⟨fun _ => true, fun _ => MicroAttempt.fault "t/o",
         fun _ => LogixAttempt.fault "t/o"⟩
        "A" ⟨"MICROLOGIX", "10.0.0.1"⟩
        [⟨2, "N7:0", 10, 1, 1⟩, ⟨3, "N7:1", 11, 1, 1⟩]
      = ([⟨"A", none, "NO RESPONSE", ⟨2, "N7:0", 10, 1, 1⟩⟩,
          ⟨"A", none, "NO RESPONSE", ⟨3, "N7:1", 11, 1, 1⟩⟩], 3) :=
  c4_no_response _ "A" _ _ rfl
    (fun i _ => ⟨"t/o", rfl⟩) (fun i _ => ⟨"t/o", rfl⟩)

/-- **C5** (confirmed).  A device whose reachability probe comes back
false yields, for every one of its catalog tags, a ReadResult with status
exactly `"OFFLINE"` and absent value, and the worker performs zero
protocol read attempts for it in that cycle. -/
theorem c5_offline (W : WireEnv) (name : String) (info : PlcInfo)
    (tl : List TagInfo) (hping : W.ping info.ip = false) :
    plc_worker W name info tl
      = (tl.map (fun t => ⟨name, none, "OFFLINE", t⟩), 0) := by
  unfold plc_worker
  rw [if_pos hping]

/-- **C5** (witness): an unreachable two-tag device. -/
theorem c5_witness :
    plc_worker
        ⟨fun _ => false, fun _ => MicroAttempt.ok [], fun _ => LogixAttempt.ok []⟩
        "B" ⟨"COMPACT", "10.0.0.2"⟩
        [⟨4, "Tank.Level", 5, 1, 1⟩, ⟨5, "Tank.Temp", 6, 1, 1⟩]
      = ([⟨"B", none, "OFFLINE", ⟨4, "Tank.Level", 5, 1, 1⟩⟩,
          ⟨"B", none, "OFFLINE", ⟨5, "Tank.Temp", 6, 1, 1⟩⟩], 0) :=
  c5_offline _ "B" _ _ rfl

/-- **C6** (confirmed).  Whatever order the workers' results were
accumulated in (the input list is arbitrary, covering every thread
interleaving), the persisted sequence `sortResults rs` is non-decreasing
in `TagDescriptor.index` — every element is ≤ every later element — and it
is a permutation of the accumulated results (nothing added or dropped by
the sort). -/
theorem c6_persist_order (rs : List ReadResult) :
    List.Pairwise (fun a b => a ≤ b)
      ((sortResults rs).map (fun r => r.tag.tag_index))
    ∧ (sortResults rs).Perm rs :=
  ⟨List.Pairwise.map _ (fun a b hab => hab)
      (List.sorted_insertionSort tagIndexLe rs),
   List.perm_insertionSort tagIndexLe rs⟩

theorem write_rows_ops_no_commit (now : String) (insertOk : Nat → Bool) :
    ∀ (rs : List ReadResult) (i : Nat) (sheet : Sheet),
      DbOp.commit ∉ (write_rows now insertOk rs i sheet).2.1 := by
  intro rs
  induction rs with
  | nil => intro i sheet; simp [write_rows]
  | cons r rs ih =>
    intro i sheet
    unfold write_rows
    by_cases hi : insertOk i = true
    · simp only [hi, if_true]
      intro hmem
      rcases List.mem_cons.mp hmem with h | h
      · exact DbOp.noConfusion h
      · exact ih (i + 1) _ h
    · simp [hi]

theorem write_rows_ok_ops (now : String) (insertOk : Nat → Bool) :
    ∀ (rs : List ReadResult) (i : Nat) (sheet : Sheet),
      (write_rows now insertOk rs i sheet).2.2 = Except.ok () →
      (write_rows now insertOk rs i sheet).2.1
        = rs.map (fun r => DbOp.ins (toSqlRow now r)) := by
  intro rs
  induction rs with
  | nil => intro i sheet _; simp [write_rows]
  | cons r rs ih =>
    intro i sheet hok
    unfold write_rows at hok ⊢
    by_cases hi : insertOk i = true
    · simp only [hi, if_true] at hok ⊢
      rw [ih (i + 1) _ hok, List.map_cons]
    · simp [hi] at hok

theorem write_rows_all_ok (now : String) (insertOk : Nat → Bool)
    (h : ∀ i, insertOk i = true) :
    ∀ (rs : List ReadResult) (i : Nat) (sheet : Sheet),
      (write_rows now insertOk rs i sheet).2.2 = Except.ok () := by
  intro rs
  induction rs with
  | nil => intro i sheet; simp [write_rows]
  | cons r rs ih =>
    intro i sheet
    unfold write_rows
    simp only [h i, if_true]
    exact ih (i + 1) _

theorem apply_ops_committed_no_commit :
    ∀ (ops : List DbOp) (db : DbState), DbOp.commit ∉ ops →
      (apply_ops db ops).committed = db.committed := by
  intro ops
  induction ops with
  | nil => intro db _; rfl
  | cons op ops ih =>
    intro db hmem
    cases op with
    | ins r =>
      exact ih _ (fun h => hmem (List.mem_cons_of_mem _ h))
    | commit => exact absurd (List.mem_cons_self _ _) hmem

theorem apply_ops_ins (rows : List SqlRow) :
    ∀ db : DbState, apply_ops db (rows.map DbOp.ins)
      = ⟨db.committed, db.pending ++ rows⟩ := by
  induction rows with
  | nil => intro db; simp [apply_ops]
  | cons r rows ih =>
    intro db
    simp only [List.map_cons, apply_ops, List.foldl_cons]
    rw [show List.foldl apply_op (apply_op db (DbOp.ins r)) (rows.map DbOp.ins)
        = apply_ops (apply_op db (DbOp.ins r)) (rows.map DbOp.ins) from rfl]
    rw [ih]
    simp [apply_op]

theorem apply_ops_append (db : DbState) (l1 l2 : List DbOp) :
    apply_ops db (l1 ++ l2) = apply_ops (apply_ops db l1) l2 := by
  simp [apply_ops]

/-- **C9** (confirmed).  Within one cycle, the relational operations on the
single per-cycle connection are the row inserts followed by at most one
`commit`, issued only after every row was inserted; and the durable store
gains the cycle's rows exactly when every insert and the commit succeed —
otherwise (an insert raises, or the commit raises) the durable rows are
unchanged: uncommitted inserts die with the connection. -/
theorem c9_relational_atomicity (now : String) (insertOk : Nat → Bool)
    (commitOk : Bool) (results : List ReadResult) (sheet : Sheet)
    (db0 : List SqlRow) :
    ((cycle_sql_ops now insertOk commitOk results sheet).1
        = results.map (fun r => DbOp.ins (toSqlRow now r)) ++ [DbOp.commit]
      ∨ DbOp.commit ∉ (cycle_sql_ops now insertOk commitOk results sheet).1)
    ∧ (apply_ops ⟨db0, []⟩
        (cycle_sql_ops now insertOk commitOk results sheet).1).committed
      = db0 ++ (if exOk (cycle_sql_ops now insertOk commitOk results sheet).2
                then results.map (toSqlRow now) else []) := by
  unfold cycle_sql_ops
  cases hw : (write_rows now insertOk results 0 sheet).2.2 with
  | error e =>
    simp only [hw]
    refine ⟨Or.inr (write_rows_ops_no_commit now insertOk results 0 sheet), ?_⟩
    rw [apply_ops_committed_no_commit _ _
      (write_rows_ops_no_commit now insertOk results 0 sheet)]
    simp [exOk]
  | ok u =>
    cases u
    simp only [hw]
    cases hc : commitOk with
    | true =>
      have hops := write_rows_ok_ops now insertOk results 0 sheet hw
      rw [hops]
      simp only [eq_self_iff_true, if_true]
      constructor
      · exact Or.inl trivial
      · have hmm : results.map (fun r => DbOp.ins (toSqlRow now r))
            = (results.map (toSqlRow now)).map DbOp.ins := by
          rw [List.map_map]
          rfl
        rw [hmm, apply_ops_append, apply_ops_ins]
        simp [exOk, apply_ops, apply_op]
    | false =>
      simp only [Bool.false_eq_true, if_false]
      refine ⟨Or.inr (write_rows_ops_no_commit now insertOk results 0 sheet), ?_⟩
      rw [apply_ops_committed_no_commit _ _
        (write_rows_ops_no_commit now insertOk results 0 sheet)]
      simp [exOk]

/-- **C2** (counterexample).  The claim says a persistence fault is caught
at the outermost loop boundary and the loop proceeds to the next cycle.
It is not: `main_loop` has no `try/except` around its cycle body and the
`__main__` guard calls it bare, so when the first cycle's commit raises,
the exception escapes the loop — the healthy second cycle never runs and
the process terminates.  The same run shows what *is* true in the claim:
the three in-memory spreadsheet mutations of the failed cycle are kept
(not rolled back) while no relational row became durable, and nothing
retries the failed cycle. -/
theorem c2_counterexample :
    main_loop_run c2DemoPlcs c2DemoTags [c2BadEnv, c2GoodEnv] c2State0
      = Except.error "SQL commit failed"
    ∧ run_cycle c2DemoPlcs c2DemoTags c2BadEnv c2State0
      = (Except.error "SQL commit failed",
         ⟨[((2, 8), some (PyVal.vstr "2026-10-12 10:00:00")),
           ((2, 7), some (PyVal.vstr "OK")),
           ((2, 6), some (PyVal.vint 7))], [], none⟩) := by
  constructor
  · rfl
  · rfl

/-- **C2** (amended).  A persistence fault during a cycle is *not* caught:
with the connection up, every insert succeeding and the commit raising,
the loop exits immediately with that exception (the remaining cycles never
run and, since `main_loop()` is called with no handler, the process
terminates).  The parts of the claim the code does satisfy are kept: the
spreadsheet mutations already applied in memory are exactly those a
successful cycle would have applied (not rolled back), the durable
relational rows are unchanged, the saved workbook file is untouched, and
nothing retries the failed cycle's persistence. -/
theorem c2_persistence_fault_amended (plcs : List (String × PlcInfo))
    (tag_map : List (String × List TagInfo)) (Es : List CycleEnv)
    (st : LoopState) (E : CycleEnv)
    (hconn : E.connectOk = true)
    (hins : ∀ i, E.insertOk i = true)
    (hcommit : E.commitOk = false) :
    main_loop_run plcs tag_map (E :: Es) st = Except.error "SQL commit failed"
    ∧ (run_cycle plcs tag_map E st).2.sheet
        = (run_cycle plcs tag_map ⟨E.wire, E.connectOk, E.insertOk, true, E.now⟩
            st).2.sheet
    ∧ (run_cycle plcs tag_map E st).2.db = st.db
    ∧ (run_cycle plcs tag_map E st).2.savedSheet = st.savedSheet := by
  have hwr := write_rows_all_ok E.now E.insertOk hins
    (sortResults (collect plcs tag_map E.wire)) 0 st.sheet
  have hcyc : run_cycle plcs tag_map E st
      = (Except.error "SQL commit failed",
         ⟨(write_rows E.now E.insertOk
             (sortResults (collect plcs tag_map E.wire)) 0 st.sheet).1,
          st.db, st.savedSheet⟩) := by
    unfold run_cycle cycle_sql_ops
    rw [hconn]
    simp only [Bool.true_eq_false, if_false, hwr, hcommit, Bool.false_eq_true,
      if_false]
  have hcycT : run_cycle plcs tag_map ⟨E.wire, E.connectOk, E.insertOk, true, E.now⟩ st
      = (Except.ok (),
         ⟨(write_rows E.now E.insertOk
             (sortResults (collect plcs tag_map E.wire)) 0 st.sheet).1,
          (apply_ops ⟨st.db, []⟩
            ((write_rows E.now E.insertOk
               (sortResults (collect plcs tag_map E.wire)) 0 st.sheet).2.1
              ++ [DbOp.commit])).committed,
          some (write_rows E.now E.insertOk
             (sortResults (collect plcs tag_map E.wire)) 0 st.sheet).1⟩) := by
    unfold run_cycle cycle_sql_ops
    rw [hconn]
    simp only [Bool.true_eq_false, if_false, hwr, if_true]
  refine ⟨?_, ?_, ?_, ?_⟩
  · unfold main_loop_run
    rw [hcyc]
  · rw [hcyc, hcycT]
  · rw [hcyc]
  · rw [hcyc]

/-- **C2** (witness): the amended theorem at the concrete demo cycle. -/
theorem c2_witness :
    main_loop_run c2DemoPlcs c2DemoTags [c2BadEnv] c2State0
      = Except.error "SQL commit failed"
    ∧ (run_cycle c2DemoPlcs c2DemoTags c2BadEnv c2State0).2.sheet
        = (run_cycle c2DemoPlcs c2DemoTags
            ⟨c2BadEnv.wire, c2BadEnv.connectOk, c2BadEnv.insertOk, true,
             c2BadEnv.now⟩ c2State0).2.sheet
    ∧ (run_cycle c2DemoPlcs c2DemoTags c2BadEnv c2State0).2.db = c2State0.db
    ∧ (run_cycle c2DemoPlcs c2DemoTags c2BadEnv c2State0).2.savedSheet
        = c2State0.savedSheet :=
  c2_persistence_fault_amended c2DemoPlcs c2DemoTags [] c2State0 c2BadEnv
    rfl (fun i => rfl) rfl

theorem purge_go_all_removes (parseYmd : PyStr → Option Int) (cutoff : Int) :
    ∀ (fs : List PyStr) (acc : List PyStr),
      purge_go parseYmd cutoff (fun _ => true) fs acc
        = ⟨acc ++ fs.filter (fun f => is_log_name f &&
            match parseYmd (log_date_str f) with
            | some d => decide (d < cutoff)
            | none => false), true⟩ := by
  intro fs
  induction fs with
  | nil => intro acc; simp [purge_go]
  | cons f rest ih =>
    intro acc
    unfold purge_go
    by_cases hname : is_log_name f = false
    · simp [hname, List.filter_cons, ih]
    · have hname' : is_log_name f = true := by
        cases h : is_log_name f
        · exact absurd h hname
        · rfl
      rw [if_neg (by simp [hname'])]
      cases hp : parseYmd (log_date_str f) with
      | none => simp [List.filter_cons, hname', hp, ih]
      | some d =>
        by_cases hd : d < cutoff
        · simp [hd, List.filter_cons, hname', hp, ih]
        · simp [hd, List.filter_cons, hname', hp, ih]

/-- **C7** (counterexample).  The claim says a partition that fails to
delete is skipped rather than fatal.  In the code only the *date parse*
has a per-file `try/except`; `os.remove` is guarded solely by the outer
`try/except` that wraps the whole `for` loop, so one failing delete ends
the entire sweep for that cycle.  Concretely, with the §8 scenario
partitions and an `os.remove` that fails on the day-1 file, *nothing* is
deleted: the day-3 partition — older than the window, removable — is left
behind, which the claim forbids. -/
theorem c7_counterexample :
    purge_old_logs demoLogFiles demoParseYmd demoPurgeNow demoRemoveFail 7
      = ⟨[], false⟩
    ∧ demoRemoveFail (pys "plc_reader_20250103.log") = true
    ∧ is_log_name (pys "plc_reader_20250103.log") = true
    ∧ demoParseYmd (log_date_str (pys "plc_reader_20250103.log"))
        = some (3 * MIN_PER_DAY)
    ∧ 3 * MIN_PER_DAY < demoPurgeNow - 7 * MIN_PER_DAY := by
  refine ⟨rfl, rfl, rfl, rfl, by decide⟩

/-- **C7** (amended).  When every delete succeeds, the sweep removes
exactly the well-named partitions whose parsed date is older than
`now - 7 days` and completes — in particular, in the §8 scenario (today =
day 10, checked at 02:00; partitions for days 1, 3, 9, 10) it deletes the
day-1 and day-3 partitions and retains days 9 and 10.  A partition whose
date fails to parse is skipped and the sweep continues.  A partition whose
*delete* fails, however, ends the sweep early for that cycle (see
`c7_counterexample`); in every case the sweep returns normally — it is a
total function, so log maintenance never stops the polling loop. -/
theorem c7_purge_amended :
    (∀ (files : List PyStr) (parseYmd : PyStr → Option Int) (now : Int),
      purge_old_logs files parseYmd now (fun _ => true) 7
        = ⟨files.filter (fun f => is_log_name f &&
            match parseYmd (log_date_str f) with
            | some d => decide (d < now - 7 * MIN_PER_DAY)
            | none => false), true⟩)
    ∧ purge_old_logs demoLogFiles demoParseYmd demoPurgeNow (fun _ => true) 7
        = ⟨[pys "plc_reader_20250101.log", pys "plc_reader_20250103.log"],
           true⟩ := by
  constructor
  · intro files parseYmd now
    unfold purge_old_logs
    rw [purge_go_all_removes]
    rfl
  · rfl

theorem restart_fires_mem :
    ∀ (ts : List Wallclock) (last : Option Nat) (t : Wallclock),
      t ∈ restart_fires ts last → restart_due t last = true := by
  intro ts
  induction ts with
  | nil => intro last t h; simp [restart_fires] at h
  | cons u ts ih =>
    intro last t h
    unfold restart_fires at h
    by_cases hd : restart_due u last = true
    · rw [if_pos hd] at h
      rcases List.mem_singleton.mp h with rfl
      exact hd
    · rw [if_neg hd] at h
      exact ih last t h

theorem restart_fires_length :
    ∀ (ts : List Wallclock) (last : Option Nat),
      (restart_fires ts last).length ≤ 1 := by
  intro ts
  induction ts with
  | nil => intro last; simp [restart_fires]
  | cons u ts ih =>
    intro last
    unfold restart_fires
    by_cases hd : restart_due u last = true
    · rw [if_pos hd]; simp
    · rw [if_neg hd]; exact ih last

/-- **C8** (confirmed).  Within one process instance (which starts with
`last_restart_date = None`), over any sequence of top-of-cycle clock
readings: every triggered restart happens at a reading with hour 2 and
minute 0, and for each calendar date at most one restart is triggered.
The guard alone enforces the 02:00 condition; the at-most-once-per-date
property holds because a firing check immediately re-execs the process
image (`os.execv`), ending the instance, and the guard's
`last_restart_date` bookkeeping also blocks a same-date refire.  Checks
during 02:01–02:59 (or any other minute) can therefore never fire. -/
theorem c8_daily_restart (ts : List Wallclock) :
    (∀ t ∈ restart_fires ts none, t.hour = 2 ∧ t.minute = 0)
    ∧ ∀ d, ((restart_fires ts none).filter
        (fun u => u.date == d)).length ≤ 1 := by
  constructor
  · intro t ht
    have := restart_fires_mem ts none t ht
    unfold restart_due at this
    simp only [Bool.and_eq_true, beq_iff_eq] at this
    exact ⟨this.1.1, this.1.2⟩
  · intro d
    exact le_trans (List.length_filter_le _ _) (restart_fires_length ts none)

/-- **C8** (witness): the restart property at a concrete check sequence
that revisits 02:00 twice and then 02:01–02:59 on the same date. -/
theorem c8_witness :
    (∀ t ∈ restart_fires c8DemoTimes none, t.hour = 2 ∧ t.minute = 0)
    ∧ ∀ d, ((restart_fires c8DemoTimes none).filter
        (fun u => u.date == d)).length ≤ 1 :=
  c8_daily_restart c8DemoTimes
